import Mathlib

/-!
Verification of the java-type-checker expression core
(`java_type_checker/expressions.py`): a shallow embedding of the
expression AST, the `static_type` computation and the `check_types`
validation algorithm, together with theorems settling the spec claims.

Python exceptions are modelled by `Except PyError`; the distinct runtime
error classes observable from the code (`JavaTypeError`, Python's builtin
`TypeError`, `AttributeError` for a missing attribute, and
`NotImplementedError` from the abstract base class) are separate
constructors of `PyError`.
-/

/-- Modelled from the spec: the `Type` capability (`types.py`, imported by
`expressions.py` but not part of the sources here). Type identity is
nominal: two types are equal iff they are the same named entity, so a
type value is just its name. -/
structure JavaType where
  name : String
deriving DecidableEq, Repr

/-- Modelled from the spec: the distinguished `void` type instance. -/
def JavaType.void : JavaType := ⟨"void"⟩

/-- Modelled from the spec: the distinguished `boolean` type instance. -/
def JavaType.boolean : JavaType := ⟨"boolean"⟩

/-- Modelled from the spec: the distinguished `int` type instance. -/
def JavaType.int : JavaType := ⟨"int"⟩

/-- Modelled from the spec: the distinguished `double` type instance. -/
def JavaType.double : JavaType := ⟨"double"⟩

/-- Modelled from the spec: the distinguished `null` type instance. -/
def JavaType.null : JavaType := ⟨"null"⟩

/-- The list `[Type.void, Type.boolean, Type.int, Type.double, Type.null]`
that `MethodCall.check_types` and `ConstructorCall.check_types` test
membership in. -/
def distinguishedTypes : List JavaType :=
  [JavaType.void, JavaType.boolean, JavaType.int, JavaType.double, JavaType.null]

/-- Modelled from the spec: a method signature, as returned by the Type
capability lookup `method_named` — ordered parameter types and a return
type. -/
structure MethodSig where
  argument_types : List JavaType
  return_type : JavaType
deriving DecidableEq, Repr

/-- Modelled from the spec: the per-type data the Type capability exposes —
the set of direct supertypes (one level), the method table, and the
constructor signature (ordered parameter types). -/
structure TypeInfo where
  direct_supertypes : List JavaType
  methods : List (String × MethodSig)
  constructor_args : List JavaType

/-- Modelled from the spec: the Type capability as a whole. In Python each
`Type` object carries its own supertypes, methods and constructor; with
nominal type values this data is supplied by an environment fixed before
checking starts. -/
def TypeEnv := JavaType → TypeInfo

deriving instance DecidableEq for Except

/-- The runtime error classes observable from `expressions.py`. -/
inductive PyError where
  | javaTypeError (msg : String)
  | pyTypeError (msg : String)
  | attributeError (msg : String)
  | notImplementedError (msg : String)
deriving DecidableEq, Repr

/-- Modelled from the spec: `method_named(name)` on a type — looks the
method up in the type's method table, failing (with the `TypeError`
propagated from the lookup capability) when no such method exists. -/
def method_named (env : TypeEnv) (t : JavaType) (nm : String) :
    Except PyError MethodSig :=
  match (env t).methods.lookup nm with
  | some sig => Except.ok sig
  | none => Except.error (PyError.javaTypeError
      ("No method named " ++ nm ++ " on type " ++ t.name))

/-- The expression AST of `expressions.py`: the closed set of concrete
`Expression` variants. -/
inductive Expression where
  | variable (name : String) (declared_type : JavaType)
  | literal (value : String) (type : JavaType)
  | nullLiteral
  | methodCall (receiver : Expression) (method_name : String)
      (args : List Expression)
  | constructorCall (instantiated_type : JavaType) (args : List Expression)

/-- Python's `type(self).__name__` for each variant. -/
def className : Expression → String
  | .variable _ _ => "Variable"
  | .literal _ _ => "Literal"
  | .nullLiteral => "NullLiteral"
  | .methodCall _ _ _ => "MethodCall"
  | .constructorCall _ _ => "ConstructorCall"

/-- Reading the `declared_type` attribute of an expression object: only
the `Variable` variant defines it, every other variant raises
`AttributeError` on access. -/
def declaredTypeAttr : Expression → Option JavaType
  | .variable _ t => some t
  | _ => none

/-- The `names` helper of `expressions.py`:
`"(" + ", ".join([e.name for e in named_things]) + ")"`. -/
def names (ts : List JavaType) : String :=
  "(" ++ String.intercalate ", " (ts.map JavaType.name) ++ ")"

/-- `static_type` of `expressions.py`, over all variants:
`Variable` returns `declared_type`; `Literal` returns `type`;
`NullLiteral` returns `Type.null`; `MethodCall` returns
`receiver.static_type().method_named(method_name).return_type`
(propagating the lookup failure); `ConstructorCall` returns
`instantiated_type`. -/
def static_type (env : TypeEnv) : Expression → Except PyError JavaType
  | .variable _ t => Except.ok t
  | .literal _ t => Except.ok t
  | .nullLiteral => Except.ok JavaType.null
  | .methodCall r n _ =>
      match static_type env r with
      | .error e => .error e
      | .ok t =>
          match method_named env t n with
          | .error e => .error e
          | .ok sig => .ok sig.return_type
  | .constructorCall t _ => Except.ok t

/-- The covariant-promotion loop of `MethodCall.check_types`:
`for i in range(0, len(expected_types)):` replace `actual_types[i]` by
`expected_types[i]` whenever
`expected_types[i] in actual_types[i].direct_supertypes`. The loop is
only reached with lists of equal length (the arity check precedes it),
where the positionwise `zipWith` is exactly the loop's effect. -/
def promote (env : TypeEnv) (expected actual : List JavaType) :
    List JavaType :=
  List.zipWith
    (fun e a => if e ∈ (env a).direct_supertypes then e else a)
    expected actual

/-- `check_types` of `expressions.py`, over all variants.
`Variable` compares `declared_type != declared_type` (never true) and
otherwise succeeds. `Literal` and `NullLiteral` define no `check_types`,
so the call lands on `Expression.check_types`, which raises
`NotImplementedError(type(self).__name__ + " must implement check_types()")`.
`MethodCall`: the distinguished-receiver check, then the method lookup,
then the `receiver.declared_type` attribute read building `call_name`,
then the argument static types, then arity, then exact comparison with a
single-step covariant promotion before the final comparison (whose
message prints the mutated, i.e. promoted, `actual_types`).
`ConstructorCall`: the distinguished-type check, then argument static
types, then the constructor signature, then arity, then exact comparison
with no promotion. -/
def check_types (env : TypeEnv) : Expression → Except PyError Unit
  | .variable _ declared_type =>
      if declared_type ≠ declared_type then
        Except.error (PyError.pyTypeError
          "Wrong type of argument for variable creation")
      else
        Except.ok ()
  | .literal _ _ =>
      Except.error (PyError.notImplementedError
        "Literal must implement check_types()")
  | .nullLiteral =>
      Except.error (PyError.notImplementedError
        "NullLiteral must implement check_types()")
  | .methodCall receiver method_name args =>
      match static_type env receiver with
      | .error e => .error e
      | .ok rt =>
          if rt ∈ distinguishedTypes then
            Except.error (PyError.javaTypeError
              ("Type " ++ rt.name ++ " does not have methods"))
          else
            match method_named env rt method_name with
            | .error e => .error e
            | .ok sig =>
                let expected_types := sig.argument_types
                match declaredTypeAttr receiver with
                | none =>
                    Except.error (PyError.attributeError
                      (className receiver ++ " object has no attribute declared_type"))
                | some dt =>
                    let call_name := dt.name ++ "." ++ method_name ++ "()"
                    match args.mapM (static_type env) with
                    | .error e => .error e
                    | .ok actual_types =>
                        if actual_types.length ≠ expected_types.length then
                          Except.error (PyError.javaTypeError
                            ("Wrong number of arguments for " ++ call_name ++
                             ": expected " ++ toString expected_types.length ++
                             ", got " ++ toString actual_types.length))
                        else if expected_types ≠ actual_types then
                          let promoted := promote env expected_types actual_types
                          if expected_types ≠ promoted then
                            Except.error (PyError.javaTypeError
                              (call_name ++ " expects arguments of type " ++
                               names expected_types ++ ", but got " ++ names promoted))
                          else
                            Except.ok ()
                        else
                          Except.ok ()
  | .constructorCall instantiated_type args =>
      if instantiated_type ∈ distinguishedTypes then
        Except.error (PyError.javaTypeError
          ("Type " ++ instantiated_type.name ++ " is not instantiable"))
      else
        match args.mapM (static_type env) with
        | .error e => .error e
        | .ok actual_types =>
            let expected_types := (env instantiated_type).constructor_args
            if actual_types.length ≠ expected_types.length then
              Except.error (PyError.javaTypeError
                ("Wrong number of arguments for " ++ instantiated_type.name ++
                 " constructor: expected " ++ toString expected_types.length ++
                 ", got " ++ toString actual_types.length))
            else if actual_types ≠ expected_types then
              Except.error (PyError.javaTypeError
                (instantiated_type.name ++ " constructor expects arguments of type " ++
                 names expected_types ++ ", but got " ++ names actual_types))
            else
              Except.ok ()

def typeT : JavaType := ⟨"T"⟩
def typeA : JavaType := ⟨"A"⟩
def typeB : JavaType := ⟨"B"⟩
def typeG : JavaType := ⟨"G"⟩
def typeX : JavaType := ⟨"X"⟩
def typeZ : JavaType := ⟨"Z"⟩
def typeFoo : JavaType := ⟨"Foo"⟩

/-- A small concrete class table used by the witnesses and
counterexamples: class `B` directly extends `A`, class `G` directly
extends `B`; class `T` declares methods `m(A, X): T`, `n(): T` and
`q(A): T`; class `Foo` declares a constructor `Foo(A)`. -/
def env0 : TypeEnv := fun t =>
  if t.name = "T" then
    { direct_supertypes := [],
      methods := [("m", ⟨[typeA, typeX], typeT⟩),
                  ("n", ⟨[], typeT⟩),
                  ("q", ⟨[typeA], typeT⟩)],
      constructor_args := [] }
  else if t.name = "B" then
    { direct_supertypes := [typeA], methods := [], constructor_args := [] }
  else if t.name = "G" then
    { direct_supertypes := [typeB], methods := [], constructor_args := [] }
  else if t.name = "A" then
    { direct_supertypes := [],
      methods := [("m", ⟨[], typeA⟩)],
      constructor_args := [] }
  else if t.name = "Foo" then
    { direct_supertypes := [], methods := [], constructor_args := [typeA] }
  else
    { direct_supertypes := [], methods := [], constructor_args := [] }

/-- Unfolding of `MethodCall.check_types` once the earlier steps are
pinned down: a `Variable` receiver of a non-distinguished type whose
method lookup succeeds and whose arguments all have static types. -/
lemma check_methodCall_variable (env : TypeEnv) (nm n : String) (t : JavaType)
    (args : List Expression) (sig : MethodSig) (actuals : List JavaType)
    (hdist : t ∉ distinguishedTypes)
    (hsig : method_named env t n = Except.ok sig)
    (hargs : args.mapM (static_type env) = Except.ok actuals) :
    check_types env (.methodCall (.variable nm t) n args) =
      (if actuals.length ≠ sig.argument_types.length then
        Except.error (PyError.javaTypeError
          ("Wrong number of arguments for " ++ (t.name ++ "." ++ n ++ "()") ++
           ": expected " ++ toString sig.argument_types.length ++
           ", got " ++ toString actuals.length))
      else if sig.argument_types ≠ actuals then
        (if sig.argument_types ≠ promote env sig.argument_types actuals then
          Except.error (PyError.javaTypeError
            ((t.name ++ "." ++ n ++ "()") ++ " expects arguments of type " ++
             names sig.argument_types ++ ", but got " ++
             names (promote env sig.argument_types actuals)))
        else Except.ok ())
      else Except.ok ()) := by
  simp only [check_types, static_type, declaredTypeAttr, hsig, hargs,
    if_neg hdist]

/-- Unfolding of `ConstructorCall.check_types` for a non-distinguished
type once all arguments have static types. -/
lemma check_constructorCall (env : TypeEnv) (t : JavaType)
    (args : List Expression) (actuals : List JavaType)
    (hdist : t ∉ distinguishedTypes)
    (hargs : args.mapM (static_type env) = Except.ok actuals) :
    check_types env (.constructorCall t args) =
      (if actuals.length ≠ (env t).constructor_args.length then
        Except.error (PyError.javaTypeError
          ("Wrong number of arguments for " ++ t.name ++
           " constructor: expected " ++ toString (env t).constructor_args.length ++
           ", got " ++ toString actuals.length))
      else if actuals ≠ (env t).constructor_args then
        Except.error (PyError.javaTypeError
          (t.name ++ " constructor expects arguments of type " ++
           names (env t).constructor_args ++ ", but got " ++ names actuals))
      else Except.ok ()) := by
  simp only [check_types, hargs, if_neg hdist]

/-- Promoting a list against itself changes nothing. -/
lemma promote_self (env : TypeEnv) (l : List JavaType) :
    promote env l l = l := by
  induction l with
  | nil => rfl
  | cons x xs ih =>
      simp only [promote, List.zipWith] at ih ⊢
      rw [ih]
      by_cases h : x ∈ (env x).direct_supertypes <;> simp [h]

/-- When every expected type equals the actual one or is one of its
direct supertypes, the promotion loop rewrites the actual list into the
expected list. -/
lemma promote_eq_of_forall2 (env : TypeEnv) {expected actual : List JavaType}
    (h : List.Forall₂
      (fun e a => e = a ∨ e ∈ (env a).direct_supertypes) expected actual) :
    promote env expected actual = expected := by
  induction h with
  | nil => rfl
  | @cons e a l1 l2 hea _ ih =>
      simp only [promote, List.zipWith_cons_cons] at ih ⊢
      rw [ih]
      rcases hea with he | hs
      · subst he
        by_cases hm : e ∈ (env e).direct_supertypes <;> simp [hm]
      · simp [hs]

/-- The element of a promoted list at a position where both inputs are
defined. -/
lemma promote_getElem? (env : TypeEnv) (expected actual : List JavaType)
    (i : Nat) (e a : JavaType)
    (he : expected[i]? = some e) (ha : actual[i]? = some a) :
    (promote env expected actual)[i]? =
      some (if e ∈ (env a).direct_supertypes then e else a) := by
  induction expected generalizing actual i with
  | nil => simp at he
  | cons x xs ih =>
      cases actual with
      | nil => simp at ha
      | cons y ys =>
          cases i with
          | zero =>
              simp only [List.getElem?_cons_zero, Option.some.injEq] at he ha
              subst he; subst ha
              simp [promote]
          | succ j =>
              simp only [List.getElem?_cons_succ] at he ha
              simpa [promote] using ih ys j he ha

/-- `mapM` over `Except` is determined by the individual images of the
list elements. -/
lemma mapM_congr_of_map_eq {α β ε : Type} (f : α → Except ε β)
    (l l2 : List α) (h : l.map f = l2.map f) :
    l.mapM f = l2.mapM f := by
  induction l generalizing l2 with
  | nil =>
      cases l2 with
      | nil => rfl
      | cons y ys => simp at h
  | cons x xs ih =>
      cases l2 with
      | nil => simp at h
      | cons y ys =>
          simp only [List.map_cons, List.cons.injEq] at h
          simp only [List.mapM_cons, h.1, ih ys h.2]

/-- C1: for every Literal and NullLiteral, `static_type` returns exactly
the type supplied at construction (`Type.null` for NullLiteral), but
`check_types` is not a successful no-op: neither variant overrides it, so
the call lands on the abstract base implementation and raises
`NotImplementedError`, contradicting the claim's error-handling half. -/
theorem C1_literal_static_type_ok_but_check_types_raises :
    ∀ (env : TypeEnv) (v : String) (t : JavaType),
      static_type env (.literal v t) = Except.ok t ∧
      check_types env (.literal v t) =
        Except.error (PyError.notImplementedError
          "Literal must implement check_types()") ∧
      static_type env .nullLiteral = Except.ok JavaType.null ∧
      check_types env .nullLiteral =
        Except.error (PyError.notImplementedError
          "NullLiteral must implement check_types()") :=
  fun _ _ _ => ⟨rfl, rfl, rfl, rfl⟩

/-- C2 (amended): for a MethodCall whose receiver is a Variable of a
non-distinguished declared type that declares the method, with the
arguments' static types exactly equal to the declared parameter types,
`check_types` succeeds and `static_type` returns the declared return
type. -/
theorem C2_method_call_exact_match (env : TypeEnv) (nm n : String)
    (t : JavaType) (args : List Expression) (sig : MethodSig)
    (hdist : t ∉ distinguishedTypes)
    (hsig : method_named env t n = Except.ok sig)
    (hargs : args.mapM (static_type env) = Except.ok sig.argument_types) :
    check_types env (.methodCall (.variable nm t) n args) = Except.ok () ∧
    static_type env (.methodCall (.variable nm t) n args) =
      Except.ok sig.return_type := by
  constructor
  · rw [check_methodCall_variable env nm n t args sig sig.argument_types
      hdist hsig hargs]
    simp
  · simp only [static_type, hsig]

/-- C2 witness: `T` declares `n(): T`; calling `n` with no arguments on a
variable of type `T` checks and has static type `T`. -/
theorem C2_witness :
    check_types env0 (.methodCall (.variable "x" typeT) "n" []) =
      Except.ok () ∧
    static_type env0 (.methodCall (.variable "x" typeT) "n" []) =
      Except.ok typeT :=
  C2_method_call_exact_match env0 "x" "n" typeT [] ⟨[], typeT⟩
    (by decide) (by decide) rfl

/-- C2 counterexample: a MethodCall satisfying every stated hypothesis —
receiver of non-distinguished static type `A` declaring `m()`, correct
arity, exactly matching (empty) argument types — whose `check_types` does
not succeed, because the receiver is a Literal and the unconditional
`receiver.declared_type` read raises AttributeError. -/
theorem C2_counterexample :
    static_type env0 (.literal "v" typeA) = Except.ok typeA ∧
    typeA ∉ distinguishedTypes ∧
    method_named env0 typeA "m" = Except.ok ⟨[], typeA⟩ ∧
    check_types env0 (.methodCall (.literal "v" typeA) "m" []) =
      Except.error (PyError.attributeError
        "Literal object has no attribute declared_type") ∧
    check_types env0 (.methodCall (.literal "v" typeA) "m" []) ≠
      Except.ok () := by
  exact ⟨rfl, by decide, by decide, rfl, by decide⟩

/-- C3 (amended): for a MethodCall whose receiver is a Variable of a
non-distinguished declared type that declares the method, with correct
arity, where at each position the expected parameter type equals the
argument's static type or is one of its direct supertypes, `check_types`
succeeds: single-step covariant widening is accepted. -/
theorem C3_method_call_one_level_covariance (env : TypeEnv) (nm n : String)
    (t : JavaType) (args : List Expression) (sig : MethodSig)
    (actuals : List JavaType)
    (hdist : t ∉ distinguishedTypes)
    (hsig : method_named env t n = Except.ok sig)
    (hargs : args.mapM (static_type env) = Except.ok actuals)
    (hcov : List.Forall₂
      (fun e a => e = a ∨ e ∈ (env a).direct_supertypes)
      sig.argument_types actuals) :
    check_types env (.methodCall (.variable nm t) n args) = Except.ok () := by
  rw [check_methodCall_variable env nm n t args sig actuals hdist hsig hargs]
  have hlen := List.Forall₂.length_eq hcov
  have hp := promote_eq_of_forall2 env hcov
  rw [if_neg (by omega : ¬actuals.length ≠ sig.argument_types.length)]
  by_cases heq : sig.argument_types = actuals
  · rw [if_neg (not_not_intro heq)]
  · rw [if_pos heq, if_neg (by simp [hp])]

/-- C3 witness: `T` declares `q(A): T` and `B` directly extends `A`;
calling `q` with an argument of static type `B` checks. -/
theorem C3_witness :
    check_types env0
      (.methodCall (.variable "x" typeT) "q" [.literal "b" typeB]) =
      Except.ok () :=
  C3_method_call_one_level_covariance env0 "x" "q" typeT
    [.literal "b" typeB] ⟨[typeA], typeT⟩ [typeB]
    (by decide) (by decide) rfl
    (List.Forall₂.cons (Or.inr (by decide)) List.Forall₂.nil)

/-- C3 counterexample: the same single-step covariant call with a Literal
receiver of the same static type satisfies every stated hypothesis, yet
`check_types` raises AttributeError instead of succeeding. -/
theorem C3_counterexample :
    typeA ∈ (env0 typeB).direct_supertypes ∧
    method_named env0 typeT "q" = Except.ok ⟨[typeA], typeT⟩ ∧
    static_type env0 (.literal "recv" typeT) = Except.ok typeT ∧
    [Expression.literal "b" typeB].mapM (static_type env0) =
      Except.ok [typeB] ∧
    check_types env0
      (.methodCall (.literal "recv" typeT) "q" [.literal "b" typeB]) =
      Except.error (PyError.attributeError
        "Literal object has no attribute declared_type") := by
  exact ⟨by decide, by decide, rfl, rfl, rfl⟩

/-- C4 (amended): for a MethodCall whose receiver is a Variable of a
non-distinguished declared type that declares the method, with correct
arity, if at some position the expected parameter type differs from the
argument's static type and is not among its direct supertypes (in
particular, when it is only reachable through two or more supertype
levels), `check_types` fails with a TypeError: the covariant promotion
never walks more than one level of the supertype chain. -/
theorem C4_two_level_widening_rejected (env : TypeEnv) (nm n : String)
    (t : JavaType) (args : List Expression) (sig : MethodSig)
    (actuals : List JavaType) (i : Nat) (e a : JavaType)
    (hdist : t ∉ distinguishedTypes)
    (hsig : method_named env t n = Except.ok sig)
    (hargs : args.mapM (static_type env) = Except.ok actuals)
    (hlen : actuals.length = sig.argument_types.length)
    (he : sig.argument_types[i]? = some e)
    (ha : actuals[i]? = some a)
    (hne : e ≠ a)
    (hsup : e ∉ (env a).direct_supertypes) :
    check_types env (.methodCall (.variable nm t) n args) =
      Except.error (PyError.javaTypeError
        ((t.name ++ "." ++ n ++ "()") ++ " expects arguments of type " ++
         names sig.argument_types ++ ", but got " ++
         names (promote env sig.argument_types actuals))) := by
  rw [check_methodCall_variable env nm n t args sig actuals hdist hsig hargs]
  have hpe : (promote env sig.argument_types actuals)[i]? = some a := by
    rw [promote_getElem? env sig.argument_types actuals i e a he ha,
      if_neg hsup]
  have hneq : sig.argument_types ≠ actuals := by
    intro hq
    rw [hq, ha] at he
    exact hne (Option.some.inj he).symm
  have hpneq : sig.argument_types ≠ promote env sig.argument_types actuals := by
    intro hq
    rw [hq, hpe] at he
    exact hne (Option.some.inj he).symm
  rw [if_neg (not_not_intro hlen), if_pos hneq, if_pos hpneq]

/-- C4 witness: `T` declares `q(A): T`, `G` directly extends `B`, and `B`
directly extends `A` — so `A` is two levels above `G` — and the call is
rejected with the argument-type TypeError. -/
theorem C4_witness :
    check_types env0
      (.methodCall (.variable "x" typeT) "q" [.literal "g" typeG]) =
      Except.error (PyError.javaTypeError
        "T.q() expects arguments of type (A), but got (G)") :=
  C4_two_level_widening_rejected env0 "x" "q" typeT [.literal "g" typeG]
    ⟨[typeA], typeT⟩ [typeG] 0 typeA typeG
    (by decide) (by decide) rfl rfl rfl rfl (by decide) (by decide)

/-- C4 counterexample: the same two-level-widening call with a Literal
receiver of the same static type is an instance of the claim as stated,
yet `check_types` fails with an AttributeError, not a TypeError. -/
theorem C4_counterexample :
    typeA ∉ (env0 typeG).direct_supertypes ∧
    typeA ≠ typeG ∧
    method_named env0 typeT "q" = Except.ok ⟨[typeA], typeT⟩ ∧
    check_types env0
      (.methodCall (.literal "recv2" typeT) "q" [.literal "g" typeG]) =
      Except.error (PyError.attributeError
        "Literal object has no attribute declared_type") ∧
    ∀ msg : String,
      check_types env0
        (.methodCall (.literal "recv2" typeT) "q" [.literal "g" typeG]) ≠
        Except.error (PyError.javaTypeError msg) := by
  refine ⟨by decide, by decide, by decide, rfl, ?_⟩
  intro msg h
  have h0 : check_types env0
      (.methodCall (.literal "recv2" typeT) "q" [.literal "g" typeG]) =
      Except.error (PyError.attributeError
        "Literal object has no attribute declared_type") := rfl
  rw [h0] at h
  simp at h

/-- C5: for a ConstructorCall of a non-distinguished type with correct
arity whose argument static types differ from the declared constructor
parameter types, `check_types` fails with a TypeError: constructor
arguments require exact positional type equality, with no covariant
promotion step. -/
theorem C5_constructor_requires_exact_types (env : TypeEnv) (t : JavaType)
    (args : List Expression) (actuals : List JavaType)
    (hdist : t ∉ distinguishedTypes)
    (hargs : args.mapM (static_type env) = Except.ok actuals)
    (hlen : actuals.length = (env t).constructor_args.length)
    (hne : actuals ≠ (env t).constructor_args) :
    check_types env (.constructorCall t args) =
      Except.error (PyError.javaTypeError
        (t.name ++ " constructor expects arguments of type " ++
         names (env t).constructor_args ++ ", but got " ++ names actuals)) := by
  rw [check_constructorCall env t args actuals hdist hargs,
    if_neg (not_not_intro hlen), if_pos hne]

/-- C5 witness: `Foo` declares constructor `Foo(A)` and `B` directly
extends `A`; the single-step covariant argument that a MethodCall would
accept is rejected by the ConstructorCall. -/
theorem C5_witness :
    typeA ∈ (env0 typeB).direct_supertypes ∧
    check_types env0 (.constructorCall typeFoo [.literal "b" typeB]) =
      Except.error (PyError.javaTypeError
        "Foo constructor expects arguments of type (A), but got (B)") :=
  ⟨by decide,
   C5_constructor_requires_exact_types env0 typeFoo [.literal "b" typeB]
     [typeB] (by decide) rfl rfl (by decide)⟩

/-- C6 (amended): a MethodCall whose receiver's static type is one of the
five distinguished types fails with the TypeError message
`Type <name> does not have methods` (no trailing period), and a
ConstructorCall of a distinguished type fails with
`Type <name> is not instantiable` (no trailing period); both guards run
first, for every method table, every argument list and every arity. -/
theorem C6_distinguished_type_guards :
    (∀ (env : TypeEnv) (r : Expression) (n : String)
        (args : List Expression) (t : JavaType),
      static_type env r = Except.ok t → t ∈ distinguishedTypes →
      check_types env (.methodCall r n args) =
        Except.error (PyError.javaTypeError
          ("Type " ++ t.name ++ " does not have methods"))) ∧
    (∀ (env : TypeEnv) (t : JavaType) (args : List Expression),
      t ∈ distinguishedTypes →
      check_types env (.constructorCall t args) =
        Except.error (PyError.javaTypeError
          ("Type " ++ t.name ++ " is not instantiable"))) := by
  constructor
  · intro env r n args t hr hmem
    simp only [check_types, hr]
    rw [if_pos hmem]
  · intro env t args hmem
    simp only [check_types]
    rw [if_pos hmem]

/-- C6 witness: a boolean-typed receiver and a void construction, each
with an argument whose own validation would fail, still hit the guards
first. -/
theorem C6_witness :
    check_types env0
      (.methodCall (.variable "b" JavaType.boolean) "foo" [.nullLiteral]) =
      Except.error (PyError.javaTypeError
        "Type boolean does not have methods") ∧
    check_types env0 (.constructorCall JavaType.void [.nullLiteral]) =
      Except.error (PyError.javaTypeError "Type void is not instantiable") :=
  ⟨C6_distinguished_type_guards.1 env0 (.variable "b" JavaType.boolean)
     "foo" [.nullLiteral] JavaType.boolean rfl (by decide),
   C6_distinguished_type_guards.2 env0 JavaType.void [.nullLiteral]
     (by decide)⟩

/-- C6 counterexample: the guard messages carry no trailing period, so
the claimed message strings (with a final period) are never raised. -/
theorem C6_counterexample :
    check_types env0
      (.methodCall (.literal "5" JavaType.int) "toString" []) =
      Except.error (PyError.javaTypeError "Type int does not have methods") ∧
    check_types env0
      (.methodCall (.literal "5" JavaType.int) "toString" []) ≠
      Except.error (PyError.javaTypeError "Type int does not have methods.") ∧
    check_types env0 (.constructorCall JavaType.int []) =
      Except.error (PyError.javaTypeError "Type int is not instantiable") ∧
    check_types env0 (.constructorCall JavaType.int []) ≠
      Except.error (PyError.javaTypeError "Type int is not instantiable.") :=
  ⟨rfl, by decide, rfl, by decide⟩

/-- C7 (amended): for a MethodCall whose receiver is a Variable of a
non-distinguished declared type that declares the method, and for a
ConstructorCall of a non-distinguished type, when the argument count
differs from the declared parameter count, `check_types` fails with a
TypeError reporting both counts — and it does so whatever the argument
types are, so no per-argument comparison or promotion precedes it. -/
theorem C7_arity_error_reports_both_counts :
    (∀ (env : TypeEnv) (nm n : String) (t : JavaType)
        (args : List Expression) (sig : MethodSig) (actuals : List JavaType),
      t ∉ distinguishedTypes →
      method_named env t n = Except.ok sig →
      args.mapM (static_type env) = Except.ok actuals →
      actuals.length ≠ sig.argument_types.length →
      check_types env (.methodCall (.variable nm t) n args) =
        Except.error (PyError.javaTypeError
          ("Wrong number of arguments for " ++ (t.name ++ "." ++ n ++ "()") ++
           ": expected " ++ toString sig.argument_types.length ++
           ", got " ++ toString actuals.length))) ∧
    (∀ (env : TypeEnv) (t : JavaType) (args : List Expression)
        (actuals : List JavaType),
      t ∉ distinguishedTypes →
      args.mapM (static_type env) = Except.ok actuals →
      actuals.length ≠ (env t).constructor_args.length →
      check_types env (.constructorCall t args) =
        Except.error (PyError.javaTypeError
          ("Wrong number of arguments for " ++ t.name ++
           " constructor: expected " ++
           toString (env t).constructor_args.length ++
           ", got " ++ toString actuals.length))) := by
  constructor
  · intro env nm n t args sig actuals hdist hsig hargs hne
    rw [check_methodCall_variable env nm n t args sig actuals hdist hsig hargs,
      if_pos hne]
  · intro env t args actuals hdist hargs hne
    rw [check_constructorCall env t args actuals hdist hargs, if_pos hne]

/-- C7 witness: `T.n()` expects 0 arguments and is called with 1;
`Foo(A)` expects 1 argument and is called with 0. -/
theorem C7_witness :
    check_types env0
      (.methodCall (.variable "x" typeT) "n" [.literal "5" JavaType.int]) =
      Except.error (PyError.javaTypeError
        "Wrong number of arguments for T.n(): expected 0, got 1") ∧
    check_types env0 (.constructorCall typeFoo []) =
      Except.error (PyError.javaTypeError
        "Wrong number of arguments for Foo constructor: expected 1, got 0") :=
  ⟨C7_arity_error_reports_both_counts.1 env0 "x" "n" typeT
     [.literal "5" JavaType.int] ⟨[], typeT⟩ [JavaType.int]
     (by decide) (by decide) rfl (by decide),
   C7_arity_error_reports_both_counts.2 env0 typeFoo [] []
     (by decide) rfl (by decide)⟩

/-- C7 counterexample: a MethodCall with wrong arity (1 argument against
declared 0) whose receiver is a Literal fails with an AttributeError, not
with a TypeError reporting the counts. -/
theorem C7_counterexample :
    method_named env0 typeT "n" = Except.ok ⟨[], typeT⟩ ∧
    check_types env0
      (.methodCall (.literal "recv3" typeT) "n" [.literal "5" JavaType.int]) =
      Except.error (PyError.attributeError
        "Literal object has no attribute declared_type") ∧
    ∀ msg : String,
      check_types env0
        (.methodCall (.literal "recv3" typeT) "n"
          [.literal "5" JavaType.int]) ≠
        Except.error (PyError.javaTypeError msg) := by
  refine ⟨by decide, rfl, ?_⟩
  intro msg h
  have h0 : check_types env0
      (.methodCall (.literal "recv3" typeT) "n"
        [.literal "5" JavaType.int]) =
      Except.error (PyError.attributeError
        "Literal object has no attribute declared_type") := rfl
  rw [h0] at h
  simp at h

/-- C8 (amended): when `MethodCall.check_types` fails on argument types
after the promotion step, the TypeError message names the qualified call
`<declared receiver type>.<method_name>()`, the expected type-name list,
and the actual type-name list as mutated by the promotion loop (positions
promoted to the expected type are rendered with the expected type's
name), each rendered by the `names` helper; the helper renders the empty
sequence as `()`. -/
theorem C8_argument_mismatch_message (env : TypeEnv) (nm n : String)
    (t : JavaType) (args : List Expression) (sig : MethodSig)
    (actuals : List JavaType)
    (hdist : t ∉ distinguishedTypes)
    (hsig : method_named env t n = Except.ok sig)
    (hargs : args.mapM (static_type env) = Except.ok actuals)
    (hlen : actuals.length = sig.argument_types.length)
    (hp : promote env sig.argument_types actuals ≠ sig.argument_types) :
    check_types env (.methodCall (.variable nm t) n args) =
      Except.error (PyError.javaTypeError
        ((t.name ++ "." ++ n ++ "()") ++ " expects arguments of type " ++
         names sig.argument_types ++ ", but got " ++
         names (promote env sig.argument_types actuals))) ∧
    names [] = "()" := by
  refine ⟨?_, rfl⟩
  rw [check_methodCall_variable env nm n t args sig actuals hdist hsig hargs]
  have hneq : sig.argument_types ≠ actuals := by
    intro hq
    rw [hq] at hp
    exact hp (promote_self env actuals)
  rw [if_neg (not_not_intro hlen), if_pos hneq, if_pos (Ne.symm hp)]

/-- C8 witness: `T.m(A, X)` called with arguments of static types
`(B, Z)`, where `B` directly extends `A`: the first position is promoted
and the message renders the promoted list `(A, Z)`. -/
theorem C8_witness :
    check_types env0 (.methodCall (.variable "r" typeT) "m"
      [.literal "b" typeB, .literal "z" typeZ]) =
      Except.error (PyError.javaTypeError
        "T.m() expects arguments of type (A, X), but got (A, Z)") ∧
    names [] = "()" :=
  C8_argument_mismatch_message env0 "r" "m"
    typeT [.literal "b" typeB, .literal "z" typeZ]
    ⟨[typeA, typeX], typeT⟩ [typeB, typeZ]
    (by decide) (by decide) rfl rfl (by decide)

/-- C8 counterexample: in the same call the arguments' actual static
types are `(B, Z)`, but the raised message renders `(A, Z)` — the
promoted list — so the message does not name the full actual type-name
list. -/
theorem C8_counterexample :
    [Expression.literal "bb" typeB, .literal "zz" typeZ].mapM
      (static_type env0) = Except.ok [typeB, typeZ] ∧
    names [typeB, typeZ] = "(B, Z)" ∧
    check_types env0 (.methodCall (.variable "rc" typeT) "m"
      [.literal "bb" typeB, .literal "zz" typeZ]) =
      Except.error (PyError.javaTypeError
        "T.m() expects arguments of type (A, X), but got (A, Z)") ∧
    check_types env0 (.methodCall (.variable "rc" typeT) "m"
      [.literal "bb" typeB, .literal "zz" typeZ]) ≠
      Except.error (PyError.javaTypeError
        "T.m() expects arguments of type (A, X), but got (B, Z)") :=
  ⟨rfl, rfl, rfl, by decide⟩

/-- C9 (amended): `check_types` of a MethodCall or ConstructorCall never
invokes the children's own validation: its outcome is a function of the
receiver's static type, the receiver's `declared_type` attribute and
class name (both used for diagnostics), the method name, and the
arguments' static types — replacing any child by one with the same static
type (and, for the receiver, the same attribute and class name) leaves
the outcome unchanged, whether or not either child passes its own
`check_types`. -/
theorem C9_outcome_from_static_types_only :
    (∀ (env : TypeEnv) (r r2 : Expression) (n : String)
        (args args2 : List Expression),
      static_type env r = static_type env r2 →
      declaredTypeAttr r = declaredTypeAttr r2 →
      className r = className r2 →
      args.map (static_type env) = args2.map (static_type env) →
      check_types env (.methodCall r n args) =
        check_types env (.methodCall r2 n args2)) ∧
    (∀ (env : TypeEnv) (t : JavaType) (args args2 : List Expression),
      args.map (static_type env) = args2.map (static_type env) →
      check_types env (.constructorCall t args) =
        check_types env (.constructorCall t args2)) := by
  constructor
  · intro env r r2 n args args2 h1 h2 h3 h4
    have hm := mapM_congr_of_map_eq (static_type env) args args2 h4
    simp only [check_types, h1, h2, h3, hm]
  · intro env t args args2 h4
    have hm := mapM_congr_of_map_eq (static_type env) args args2 h4
    simp only [check_types, hm]

/-- C9 witness: swapping an argument whose own validation fails (a
Literal) for one that passes (a Variable) of the same static type leaves
the MethodCall outcome unchanged. -/
theorem C9_witness :
    check_types env0
      (.methodCall (.variable "x" typeT) "q" [.literal "b" typeB]) =
    check_types env0
      (.methodCall (.variable "y" typeT) "q" [.variable "zz" typeB]) :=
  C9_outcome_from_static_types_only.1 env0
    (.variable "x" typeT) (.variable "y" typeT) "q"
    [.literal "b" typeB] [.variable "zz" typeB] rfl rfl rfl rfl

/-- C9 counterexample: two MethodCalls whose children have identical
static types (receiver of static type `A`, no arguments) but different
outcomes — success for a Variable receiver, AttributeError for a Literal
receiver — so the outcome is not determined only by the children's
static types. -/
theorem C9_counterexample :
    static_type env0 (.variable "x" typeA) =
      static_type env0 (.literal "v" typeA) ∧
    check_types env0 (.methodCall (.variable "x" typeA) "m" []) =
      Except.ok () ∧
    check_types env0 (.methodCall (.literal "v" typeA) "m" []) =
      Except.error (PyError.attributeError
        "Literal object has no attribute declared_type") :=
  ⟨rfl, rfl, rfl⟩

/-- C10: for a MethodCall whose receiver's static type is
non-distinguished and declares the method, `check_types` reads the
receiver's `declared_type` attribute before the arity and argument-type
checks; only the Variable variant carries that attribute, so with any
other receiver the call raises an AttributeError — whatever the
arguments are, in particular when arity and all argument types are
correct. -/
theorem C10_non_variable_receiver_attribute_error :
    (∀ (env : TypeEnv) (r : Expression) (n : String)
        (args : List Expression) (t : JavaType) (sig : MethodSig),
      static_type env r = Except.ok t →
      t ∉ distinguishedTypes →
      method_named env t n = Except.ok sig →
      declaredTypeAttr r = none →
      check_types env (.methodCall r n args) =
        Except.error (PyError.attributeError
          (className r ++ " object has no attribute declared_type"))) ∧
    (∀ r : Expression,
      declaredTypeAttr r = none ↔
        ∀ (nm : String) (dt : JavaType), r ≠ .variable nm dt) := by
  constructor
  · intro env r n args t sig hr hdist hsig hattr
    simp only [check_types, hr]
    rw [if_neg hdist]
    simp only [hsig, hattr]
  · intro r
    cases r <;>
      first
      | exact ⟨fun _ nm2 dt2 h => Expression.noConfusion h, fun _ => rfl⟩
      | exact ⟨fun h => Option.noConfusion h, fun h => absurd rfl (h _ _)⟩

/-- C10 witness: a ConstructorCall receiver of static type `A` (which
declares `m()`), called with correct arity and argument types, raises
AttributeError rather than a TypeError. -/
theorem C10_witness :
    check_types env0 (.methodCall (.constructorCall typeA []) "m" []) =
      Except.error (PyError.attributeError
        "ConstructorCall object has no attribute declared_type") :=
  C10_non_variable_receiver_attribute_error.1 env0
    (.constructorCall typeA []) "m" [] typeA ⟨[], typeA⟩
    rfl (by decide) (by decide) rfl
